import Mathlib

/-!
Verification of the network-speedtesting backend (backend/src/index.ts).

Shallow embedding of the Express speed-test server's core logic:

* the `/api/download` size clamp and the `sendChunk` streaming loop
  (including its backpressure behaviour, modelled as a labelled
  transition system);
* the `/api/upload` Content-Length validation and byte-counting handler;
* the `/api/ping` timestamp echo.

JavaScript numbers that may be `NaN` (the result of `parseInt` on a
non-numeric string, and anything `Math.min`/`Math.max` computes from it)
are modelled by `JSNum`.  Byte counters are `Nat`; timestamps are `Int`
(milliseconds since epoch); the upload duration is an exact rational.
-/

namespace SpeedTest

/-- A JavaScript number restricted to the values that occur in the size
computations: either `NaN` or an integer. -/
inductive JSNum where
  | nan : JSNum
  | num : Int → JSNum
deriving DecidableEq, Repr

/-- Model of `Math.min` on `JSNum`: `NaN` is absorbing, as in JavaScript. -/
def jsMin : JSNum → JSNum → JSNum
  | .nan, _ => .nan
  | _, .nan => .nan
  | .num a, .num b => .num (min a b)

/-- Model of `Math.max` on `JSNum`: `NaN` is absorbing, as in JavaScript. -/
def jsMax : JSNum → JSNum → JSNum
  | .nan, _ => .nan
  | _, .nan => .nan
  | .num a, .num b => .num (max a b)

/-- Numeric value of the leading decimal digits, most significant first. -/
def digitsVal (l : List Char) : Nat :=
  l.foldl (fun acc c => 10 * acc + (c.toNat - ('0').toNat)) 0

/-- Body of `parseInt(·, 10)` after sign handling: take the leading run
of decimal digits; `NaN` when there is none. -/
def parseIntCore (sign : Int) (l : List Char) : JSNum :=
  let ds := l.takeWhile Char.isDigit
  if ds.isEmpty then .nan else .num (sign * (digitsVal ds : Int))

/-- Model of JavaScript `parseInt(s, 10)`: skip leading spaces, read an
optional sign, then the leading decimal digits; `NaN` if no digit follows. -/
def parseIntJS (s : String) : JSNum :=
  match s.data.dropWhile (fun c => c = ' ') with
  | '-' :: rest => parseIntCore (-1) rest
  | '+' :: rest => parseIntCore 1 rest
  | l => parseIntCore 1 l

/-- Constant `minSize` in src/index.ts: 50 MiB. -/
def minSize : Nat := 50 * 1024 * 1024

/-- Constant `maxSize` in src/index.ts: 200 MiB. -/
def maxSize : Nat := 200 * 1024 * 1024

/-- The default download size: 100 MiB. -/
def defaultSize : Nat := 100 * 1024 * 1024

/-- Constant `chunkSize` in src/index.ts: 64 KiB. -/
def chunkSize : Nat := 64 * 1024

/-- Model of `const sizeBytes = sizeParam ? parseInt(sizeParam, 10) :
100*1024*1024`.  An empty query string is falsy in JavaScript, so it
also selects the default. -/
def sizeBytesOf (sizeParam : Option String) : JSNum :=
  match sizeParam with
  | none => .num (defaultSize : Int)
  | some s => if s = "" then .num (defaultSize : Int) else parseIntJS s

/-- Model of `const finalSize = Math.max(minSize, Math.min(maxSize, sizeBytes))`. -/
def finalSizeOf (sizeParam : Option String) : JSNum :=
  jsMax (.num (minSize : Int)) (jsMin (.num (maxSize : Int)) (sizeBytesOf sizeParam))

/-- The sequence of chunk sizes emitted by running `sendChunk` to
completion from a byte counter `sent` toward `target` bytes: each
invocation with `sent < target` writes `min(chunkSize, target - sent)`
bytes and recurses; the loop stops (and `res.end()` is called) once
`sent >= target`. -/
def chunkSizes (target sent : Nat) : List Nat :=
  if target ≤ sent then []
  else
    min chunkSize (target - sent) :: chunkSizes target (sent + min chunkSize (target - sent))
termination_by target - sent
decreasing_by
  simp_wf
  simp only [chunkSize]
  omega

/-! ## The `sendChunk` loop as a labelled transition system

`sendChunk` is event-driven: each invocation either ends the stream
(`sent >= finalSize`), or generates one chunk, writes it, and then either
reschedules itself (`process.nextTick`) when `res.write` accepted the
chunk, registers a one-shot `drain` handler when the write was rejected,
or calls `res.end()` when the chunk completed the transfer.  The state of
a session is the byte counter together with the control mode; the value
returned by `res.write` is the environment's choice, so both outcomes of
a write appear as distinct transitions. -/

/-- Control mode of a download session: `writing` means a `sendChunk`
invocation is scheduled; `waitingForDrain` mirrors `isDraining = true`
with the one-shot drain handler registered; `done` means `res.end()` has
been called. -/
inductive Mode where
  | writing
  | waitingForDrain
  | done
deriving DecidableEq, Repr

/-- Observable action of one event-loop turn of the download session. -/
inductive Label where
  /-- a buffer of `size` random bytes was generated and passed to `res.write` -/
  | write (size : Nat)
  /-- the call `res.end()` happened without writing (entry with `sent >= finalSize`) -/
  | endStream
  /-- the transport's `drain` event fired and was consumed -/
  | drain
deriving DecidableEq, Repr

/-- One event-loop turn of the download session with target `target`:
either a `sendChunk` invocation or the registered drain callback. -/
inductive Step (target : Nat) : Nat × Mode → Label → Nat × Mode → Prop where
  /-- entry of `sendChunk` with `sent >= finalSize`: `res.end()` and stop. -/
  | sendEnd (sent : Nat) (h : target ≤ sent) :
      Step target (sent, .writing) .endStream (sent, .done)
  /-- the write was accepted and more bytes remain: reschedule via
  `process.nextTick(sendChunk)`. -/
  | sendAccepted (sent : Nat) (h : sent < target)
      (h2 : sent + min chunkSize (target - sent) < target) :
      Step target (sent, .writing) (.write (min chunkSize (target - sent)))
        (sent + min chunkSize (target - sent), .writing)
  /-- the write was accepted and the transfer is complete:
  `res.end()` in the same turn. -/
  | sendAcceptedLast (sent : Nat) (h : sent < target)
      (h2 : target ≤ sent + min chunkSize (target - sent)) :
      Step target (sent, .writing) (.write (min chunkSize (target - sent)))
        (sent + min chunkSize (target - sent), .done)
  /-- the write was rejected (`res.write` returned `false`): set `isDraining`, register
  `res.once('drain', ...)`, produce nothing further. -/
  | sendRejected (sent : Nat) (h : sent < target) :
      Step target (sent, .writing) (.write (min chunkSize (target - sent)))
        (sent + min chunkSize (target - sent), .waitingForDrain)
  /-- the `drain` event fired: clear `isDraining` and call `sendChunk`
  again (the new invocation is the next turn). -/
  | drainSignal (sent : Nat) :
      Step target (sent, .waitingForDrain) .drain (sent, .writing)

/-- States of a download session reachable from the initial state
`sent = 0`, `sendChunk` scheduled. -/
inductive Reachable (target : Nat) : Nat × Mode → Prop where
  | init : Reachable target (0, .writing)
  | step {st : Nat × Mode} {l : Label} {st' : Nat × Mode} :
      Reachable target st → Step target st l st' → Reachable target st'

/-- Bytes handed to the transport by a single turn. -/
def writeSize : Label → Nat
  | .write c => c
  | .endStream => 0
  | .drain => 0

/-! ## The upload handler -/

/-- Response of the upload handler: a 400 with its error message, or the
JSON success body with fields `received`, `expected`, `duration` and
`timestamp`. -/
inductive UploadResp where
  | badRequest (msg : String)
  | ok (received : Nat) (expected : Int) (duration : ℚ) (timestamp : Int)
deriving DecidableEq

/-- Whether the response is a 400 client error. -/
def UploadResp.isError : UploadResp → Bool
  | .badRequest _ => true
  | .ok .. => false

/-- The `POST /api/upload` handler (src/index.ts lines 121-184).
`startTime`/`endTime` are the two `Date.now()` readings, `hdr` the
`Content-Length` header if present, `chunks` the lengths of the body
chunks delivered to the `data` listener before `end`.  The returned
boolean records whether the `data` listener was installed: the early 400
returns happen before `req.on('data', ...)`. -/
def uploadHandler (startTime endTime : Int) (hdr : Option String)
    (chunks : List Nat) : UploadResp × Bool :=
  match hdr with
  | none => (.badRequest "Content-Length header required", false)
  | some cl =>
    if cl = "" then (.badRequest "Content-Length header required", false)
    else
      match parseIntJS cl with
      | .nan => (.badRequest "Invalid Content-Length", false)
      | .num n =>
        if n ≤ 0 then (.badRequest "Invalid Content-Length", false)
        else
          (.ok chunks.sum n (((endTime - startTime : Int) : ℚ) / 1000) endTime, true)

/-! ## The ping handler -/

/-- The `GET /api/ping` handler: reads `Date.now()` once into
`serverTime` and returns the pair of fields `timestamp` and
`serverTime`, both set to that one reading. -/
def pingHandler (now : Int) : Int × Int := (now, now)

/-! ## Helper lemmas -/

theorem chunkSize_pos : 0 < chunkSize := by decide

/-- Running the chunk loop from `sent` delivers exactly the remaining
`target - sent` bytes. -/
theorem chunkSizes_sum (target sent : Nat) :
    (chunkSizes target sent).sum = target - sent := by
  refine chunkSizes.induct target
    (fun s => (chunkSizes target s).sum = target - s) ?_ ?_ sent
  · intro s h
    rw [chunkSizes, if_pos h]
    simpa using (Nat.sub_eq_zero_of_le h).symm
  · intro s h ih
    rw [chunkSizes, if_neg h]
    rw [List.sum_cons, ih]
    have := chunkSize_pos
    omega

/-- Every chunk the loop emits is at most `chunkSize` bytes. -/
theorem chunkSizes_le (target sent : Nat) :
    ∀ c ∈ chunkSizes target sent, c ≤ chunkSize := by
  refine chunkSizes.induct target
    (fun s => ∀ c ∈ chunkSizes target s, c ≤ chunkSize) ?_ ?_ sent
  · intro s h
    rw [chunkSizes, if_pos h]
    simp
  · intro s h ih
    rw [chunkSizes, if_neg h]
    intro c hc
    rcases List.mem_cons.mp hc with hc | hc
    · omega
    · exact ih c hc

/-- No prefix of the emitted chunks exceeds the remaining byte budget. -/
theorem chunkSizes_take_le (target sent : Nat) :
    ∀ n, ((chunkSizes target sent).take n).sum ≤ target - sent := by
  refine chunkSizes.induct target
    (fun s => ∀ n, ((chunkSizes target s).take n).sum ≤ target - s) ?_ ?_ sent
  · intro s h n
    rw [chunkSizes, if_pos h]
    simp
  · intro s h ih n
    rw [chunkSizes, if_neg h]
    match n with
    | 0 => simp
    | n + 1 =>
      rw [List.take_succ_cons, List.sum_cons]
      have := ih n
      have := chunkSize_pos
      omega

/-- The byte counter never exceeds the target along any execution. -/
theorem reachable_sent_le (target : Nat) (st : Nat × Mode)
    (h : Reachable target st) : st.1 ≤ target := by
  induction h with
  | init => exact Nat.zero_le _
  | step _ hs ih =>
    cases hs <;> simp_all <;> omega

/-! ## Claim theorems -/

/-- Claim C1: for every admissible target size `s` in [50 MiB, 200 MiB],
running the download chunk loop to completion writes exactly `s` bytes in
total, each individual chunk is at most 64 KiB, no prefix of the writes
exceeds `s`, and the stream is ended (any transition into `Mode.done`)
exactly when the count of bytes written equals `s`. -/
theorem download_stream_exact (s : Nat) (_hmin : minSize ≤ s) (_hmax : s ≤ maxSize) :
    (chunkSizes s 0).sum = s ∧
    (∀ c ∈ chunkSizes s 0, c ≤ chunkSize) ∧
    (∀ n, ((chunkSizes s 0).take n).sum ≤ s) ∧
    (∀ st l st', Reachable s st → Step s st l st' → st'.2 = Mode.done → st'.1 = s) := by
  refine ⟨?_, chunkSizes_le s 0, ?_, ?_⟩
  · simpa using chunkSizes_sum s 0
  · intro n
    simpa using chunkSizes_take_le s 0 n
  · intro st l st' hr hs hdone
    have hle := reachable_sent_le s st hr
    cases hs <;> simp_all <;> omega

/-- Witness for C1 at the concrete admissible size 50 MiB. -/
theorem download_stream_exact_witness :
    minSize ≤ 52428800 ∧ 52428800 ≤ maxSize ∧
    ((chunkSizes 52428800 0).sum = 52428800 ∧
     (∀ c ∈ chunkSizes 52428800 0, c ≤ chunkSize) ∧
     (∀ n, ((chunkSizes 52428800 0).take n).sum ≤ 52428800) ∧
     (∀ st l st', Reachable 52428800 st → Step 52428800 st l st' →
        st'.2 = Mode.done → st'.1 = 52428800)) :=
  ⟨by decide, by decide, download_stream_exact 52428800 (by decide) (by decide)⟩

/-- Claim C2: a `size` query parameter that parses to an integer `v` is
clamped to `max(50 MiB, min(200 MiB, v))`, and an absent parameter yields
exactly the 100 MiB default. -/
theorem download_size_clamp (s : String) (v : Int) (hp : parseIntJS s = JSNum.num v) :
    finalSizeOf (some s) = JSNum.num (max (minSize : Int) (min (maxSize : Int) v)) ∧
    finalSizeOf none = JSNum.num (defaultSize : Int) := by
  constructor
  · have hne : s ≠ "" := by
      intro hcl
      rw [hcl] at hp
      have hz : parseIntJS "" = JSNum.nan := rfl
      rw [hz] at hp
      exact JSNum.noConfusion hp
    simp [finalSizeOf, sizeBytesOf, hne, hp, jsMin, jsMax]
  · simp only [finalSizeOf, sizeBytesOf, jsMin, jsMax, JSNum.num.injEq]
    norm_num [minSize, maxSize, defaultSize]

/-- Witness for C2 at the concrete parameter `"10"` (below the minimum,
so clamped up to 50 MiB). -/
theorem download_size_clamp_witness :
    parseIntJS "10" = JSNum.num 10 ∧
    (finalSizeOf (some "10") = JSNum.num (max (minSize : Int) (min (maxSize : Int) 10)) ∧
     finalSizeOf none = JSNum.num (defaultSize : Int)) :=
  ⟨by decide, download_size_clamp "10" 10 (by decide)⟩

/-- Claim C9: a present but non-numeric `size` parameter makes
`parseInt` return `NaN`, the `Math.max`/`Math.min` clamp propagates the
`NaN`, and the computed final size is `NaN` — never an admissible clamped
integer. -/
theorem download_nan_propagation (s : String) (hne : s ≠ "")
    (hp : parseIntJS s = JSNum.nan) :
    finalSizeOf (some s) = JSNum.nan ∧
    ∀ v : Int, finalSizeOf (some s) ≠ JSNum.num v := by
  have h1 : finalSizeOf (some s) = JSNum.nan := by
    simp [finalSizeOf, sizeBytesOf, hne, hp, jsMin, jsMax]
  refine ⟨h1, fun v hv => ?_⟩
  rw [h1] at hv
  exact JSNum.noConfusion hv

/-- Witness for C9 at the concrete non-numeric parameter `"abc"`. -/
theorem download_nan_propagation_witness :
    finalSizeOf (some "abc") = JSNum.nan ∧
    ∀ v : Int, finalSizeOf (some "abc") ≠ JSNum.num v :=
  download_nan_propagation "abc" (by decide) (by decide)

/-- Claim C5: whenever a write is rejected the session enters
`waitingForDrain`; while in `waitingForDrain` the writer takes no step
other than consuming the explicit drain signal — in particular it
generates and writes no chunk — and the drain signal is the only way
back to `writing`.  Conversely, `waitingForDrain` is entered only from
`writing` by a (rejected) chunk write. -/
theorem download_backpressure (target : Nat) (st : Nat × Mode) (l : Label)
    (st' : Nat × Mode) (h : Step target st l st') :
    (st.2 = Mode.waitingForDrain →
      l = Label.drain ∧ st'.2 = Mode.writing ∧ st'.1 = st.1) ∧
    (st'.2 = Mode.waitingForDrain →
      st.2 = Mode.writing ∧ ∃ c, l = Label.write c) := by
  cases h <;> simp

/-- Witness for C5: the drain transition at a concrete suspended state. -/
theorem download_backpressure_witness :
    Label.drain = Label.drain ∧
    (((5 : Nat), Mode.writing) : Nat × Mode).2 = Mode.writing ∧
    (((5 : Nat), Mode.writing) : Nat × Mode).1 =
      (((5 : Nat), Mode.waitingForDrain) : Nat × Mode).1 :=
  (download_backpressure 100 (5, Mode.waitingForDrain) Label.drain
    (5, Mode.writing) (Step.drainSignal 5)).1 rfl

/-- Claim C6: in every reachable state of a download session the byte
counter satisfies `sentBytes ≤ targetBytes`, and every chunk-writing
step increases it by exactly `min(chunkSize, targetBytes - sentBytes)`,
which is strictly positive, so the counter strictly increases. -/
theorem download_counter_invariant (target : Nat) (st : Nat × Mode)
    (hr : Reachable target st) :
    st.1 ≤ target ∧
    ∀ l st', Step target st l st' → ∀ c, l = Label.write c →
      c = min chunkSize (target - st.1) ∧ st'.1 = st.1 + c ∧ st.1 < st'.1 := by
  refine ⟨reachable_sent_le target st hr, ?_⟩
  intro l st' hs c hc
  have := chunkSize_pos
  cases hs <;> simp_all <;> omega

/-- Witness for C6 at the initial state of a concrete session. -/
theorem download_counter_invariant_witness :
    (((0 : Nat), Mode.writing) : Nat × Mode).1 ≤ 200000 :=
  (download_counter_invariant 200000 (0, Mode.writing) Reachable.init).1

/-- Claim C8: each turn of the download writer allocates and hands to
the transport at most one buffer of at most `chunkSize = 64 KiB` bytes,
strictly smaller than any admissible target, and advances the counter by
at most one chunk — the full payload is never buffered by the writer. -/
theorem download_memory_bound (target : Nat) (st : Nat × Mode) (l : Label)
    (st' : Nat × Mode) (hs : Step target st l st') (hmin : minSize ≤ target) :
    writeSize l ≤ chunkSize ∧ writeSize l < target ∧ st'.1 ≤ st.1 + chunkSize := by
  have h1 : chunkSize < minSize := by decide
  cases hs <;> simp_all [writeSize] <;> omega

/-- Witness for C8 at a concrete accepted write of a 50 MiB session. -/
theorem download_memory_bound_witness :
    writeSize (Label.write (min chunkSize (52428800 - 0))) ≤ chunkSize ∧
    writeSize (Label.write (min chunkSize (52428800 - 0))) < 52428800 ∧
    ((0 + min chunkSize (52428800 - 0), Mode.writing) : Nat × Mode).1 ≤
      (((0 : Nat), Mode.writing) : Nat × Mode).1 + chunkSize :=
  download_memory_bound 52428800 (0, Mode.writing) _ _
    (Step.sendAccepted 0 (by decide) (by decide)) (by decide)

/-- Claim C3: an upload request whose `Content-Length` header is absent,
fails to parse as a number, or parses to a non-positive value is answered
with a 400 error, the `data` listener is never installed, and the outcome
is independent of whatever body chunks arrive — no inbound byte is
counted. -/
theorem upload_reject_invalid (startT endT : Int) (hdr : Option String)
    (chunks : List Nat)
    (h : hdr = none ∨ ∃ cl, hdr = some cl ∧
      (parseIntJS cl = JSNum.nan ∨ ∃ n, parseIntJS cl = JSNum.num n ∧ n ≤ 0)) :
    (uploadHandler startT endT hdr chunks).1.isError = true ∧
    (uploadHandler startT endT hdr chunks).2 = false ∧
    uploadHandler startT endT hdr chunks = uploadHandler startT endT hdr [] := by
  rcases h with h | ⟨cl, rfl, h⟩
  · subst h
    simp [uploadHandler, UploadResp.isError]
  · by_cases hcl : cl = ""
    · subst hcl
      simp [uploadHandler, UploadResp.isError]
    · rcases h with hnan | ⟨n, hn, hle⟩
      · simp [uploadHandler, hcl, hnan, UploadResp.isError]
      · simp [uploadHandler, hcl, hn, hle, UploadResp.isError]

/-- Witness for C3 at the concrete non-numeric header `"xyz"` with a
nonempty body. -/
theorem upload_reject_invalid_witness :
    (uploadHandler 0 1 (some "xyz") [5]).1.isError = true ∧
    (uploadHandler 0 1 (some "xyz") [5]).2 = false ∧
    uploadHandler 0 1 (some "xyz") [5] = uploadHandler 0 1 (some "xyz") [] :=
  upload_reject_invalid 0 1 (some "xyz") [5]
    (Or.inr ⟨"xyz", rfl, Or.inl (by decide)⟩)

/-- Claim C4: an upload with a valid declared length `n` whose body
delivers chunks `chunks` and then completes reports
`received = chunks.sum` (the bytes actually observed, independent of
`n`), `expected = n`, `duration = (endTime - startTime)/1000` seconds
with `duration ≥ 0`, and `timestamp = endTime`; in particular when the
chunks total `n` the response reports `received == n == expected`. -/
theorem upload_success_report (startT endT : Int) (cl : String) (n : Int)
    (chunks : List Nat) (hp : parseIntJS cl = JSNum.num n) (hpos : 0 < n)
    (ht : startT ≤ endT) :
    (uploadHandler startT endT (some cl) chunks).1 =
      UploadResp.ok chunks.sum n (((endT - startT : Int) : ℚ) / 1000) endT ∧
    0 ≤ (((endT - startT : Int) : ℚ) / 1000) ∧
    ((chunks.sum : Int) = n →
      (uploadHandler startT endT (some cl) chunks).1 =
        UploadResp.ok chunks.sum ((chunks.sum : Nat) : Int)
          (((endT - startT : Int) : ℚ) / 1000) endT) := by
  have hne : cl ≠ "" := by
    intro hcl
    rw [hcl] at hp
    have hz : parseIntJS "" = JSNum.nan := rfl
    rw [hz] at hp
    exact JSNum.noConfusion hp
  have hmain : (uploadHandler startT endT (some cl) chunks).1 =
      UploadResp.ok chunks.sum n (((endT - startT : Int) : ℚ) / 1000) endT := by
    simp [uploadHandler, hne, hp, not_le.mpr hpos]
  refine ⟨hmain, ?_, ?_⟩
  · apply div_nonneg
    · exact_mod_cast sub_nonneg.mpr ht
    · norm_num
  · intro hsum
    rw [hmain, hsum]

/-- Witness for C4: declared length 3, body chunks of sizes 1 and 2. -/
theorem upload_success_report_witness :
    (uploadHandler 0 500 (some "3") [1, 2]).1 =
      UploadResp.ok ([1, 2] : List Nat).sum 3 (((500 - 0 : Int) : ℚ) / 1000) 500 ∧
    0 ≤ (((500 - 0 : Int) : ℚ) / 1000) ∧
    ((([1, 2] : List Nat).sum : Int) = 3 →
      (uploadHandler 0 500 (some "3") [1, 2]).1 =
        UploadResp.ok ([1, 2] : List Nat).sum ((([1, 2] : List Nat).sum : Nat) : Int)
          (((500 - 0 : Int) : ℚ) / 1000) 500) :=
  upload_success_report 0 500 "3" 3 [1, 2] (by decide) (by decide) (by decide)

/-- Claim C7: the ping handler returns the clock reading verbatim, so
across any sequence of sequential calls sampled from a non-decreasing
clock the returned `timestamp` fields are non-decreasing. -/
theorem ping_timestamps_monotone (clock : Nat → Int)
    (hm : ∀ i j, i ≤ j → clock i ≤ clock j) (i j : Nat) (hij : i ≤ j) :
    (pingHandler (clock i)).1 ≤ (pingHandler (clock j)).1 :=
  hm i j hij

/-- Witness for C7 with the identity clock at calls 0 and 1. -/
theorem ping_timestamps_monotone_witness :
    (pingHandler ((fun k : Nat => (k : Int)) 0)).1 ≤
      (pingHandler ((fun k : Nat => (k : Int)) 1)).1 :=
  ping_timestamps_monotone (fun k => (k : Int))
    (fun i j h => by simpa using h) 0 1 (by decide)

/-- Claim C10: in every ping response the `timestamp` and `serverTime`
fields are equal, both being the single `Date.now()` reading taken at
the start of handling the request. -/
theorem ping_single_clock_reading (now : Int) :
    (pingHandler now).1 = now ∧ (pingHandler now).2 = now ∧
    (pingHandler now).1 = (pingHandler now).2 :=
  ⟨rfl, rfl, rfl⟩

end SpeedTest
